import Mathlib

/-!
Shallow embedding of
`packages/phone-number-privacy/signer/src/signing/get-partial-signature.ts`
(`handleGetBlindedMessagePartialSig` and its helper `isValidGetSignatureInput`).

The handler orchestrates external collaborators: the input-validation
predicates and `authenticateUser` from `@celo/phone-number-privacy-common`,
the quota lookup `getRemainingQueryCount`, the chain-height read
`getBlockNumber`, the BLS engine `computeBlindedSignature` (together with the
key provider feeding it), and the persistence wrappers `getRequestExists`,
`storeRequest` and `incrementQueryCount`.  None of those collaborators' bodies
are part of the file under study; an environment `Env` records, for the single
call under consideration, the outcome each collaborator produces when it is
invoked: `Except Unit α` for an awaited call that may either resolve with a
value or reject with an exception, and `Bool` for the pure validation
predicates applied to this request's body.

The handler's observable behaviour is a pair of a `HandlerOutcome` (which HTTP
response is produced, with its payload) and an `Effects` trace recording which
collaborators were invoked and the `errorMsgs` list accumulated by the handler.
-/

namespace GetPartialSignature

/-- Modelled from the spec: `ErrorMessage.CONTRACT_GET_FAILURE`, the
"contract read failure" diagnostic tag, lives in the external
`@celo/phone-number-privacy-common` package, not under `src/`.  Only its
identity (distinctness from the other tags) matters to the handler. -/
def ErrorMessage.CONTRACT_GET_FAILURE : String := "contract read failure"

/-- Modelled from the spec: `ErrorMessage.FAILURE_TO_STORE_REQUEST`, the
"failed to store request" diagnostic tag from the external common package. -/
def ErrorMessage.FAILURE_TO_STORE_REQUEST : String := "failed to store request"

/-- Modelled from the spec: `ErrorMessage.FAILURE_TO_INCREMENT_QUERY_COUNT`,
the "failed to increment count" diagnostic tag from the external common
package. -/
def ErrorMessage.FAILURE_TO_INCREMENT_QUERY_COUNT : String :=
  "failed to increment count"

/-- Modelled from the spec: `WarningMessage.DUPLICATE_REQUEST_TO_GET_PARTIAL_SIG`,
the "duplicate request" diagnostic tag from the external common package. -/
def WarningMessage.DUPLICATE_REQUEST_TO_GET_PARTIAL_SIG : String :=
  "duplicate request"

/-- Quota lookup result (`getRemainingQueryCount` resolves to this shape). -/
structure QuotaStatus where
  performedQueryCount : Int
  totalQuota : Int
deriving DecidableEq, Repr

instance instDecidableEqExcept {ε α : Type} [DecidableEq ε] [DecidableEq α] :
    DecidableEq (Except ε α) := fun a b =>
  match a, b with
  | .ok x, .ok y =>
    if h : x = y then isTrue (congrArg Except.ok h)
    else isFalse (fun hc => h (Except.ok.inj hc))
  | .error x, .error y =>
    if h : x = y then isTrue (congrArg Except.error h)
    else isFalse (fun hc => h (Except.error.inj hc))
  | .ok _, .error _ => isFalse (fun hc => Except.noConfusion hc)
  | .error _, .ok _ => isFalse (fun hc => Except.noConfusion hc)

/-- Per-call outcomes of every external collaborator the handler consults.
Pure validation predicates are recorded as the `Bool` they return on this
request's body; awaited calls are recorded as `Except Unit α`, `.error ()`
standing for a rejected promise / thrown exception. -/
structure Env where
  hasValidAccountParam : Bool
  hasValidQueryPhoneNumberParam : Bool
  phoneNumberHashIsValidIfExists : Bool
  isBodyReasonablySized : Bool
  hasValidTimestamp : Bool
  authenticateUser : Except Unit Bool
  getRemainingQueryCount : Except Unit QuotaStatus
  getBlockNumber : Except Unit Int
  computeBlindedSignature : Except Unit String
  getRequestExistsRaw : Except Unit Bool
  storeRequestRaw : Except Unit Bool
  incrementQueryCountRaw : Except Unit Bool
  version : String
deriving DecidableEq, Repr

/-- Modelled from the spec: the wrapper `getRequestExists` in
`src/database/wrappers/request.ts` is not under `src/`; per the spec the
request store exposes `exists(fingerprint) -> bool` where "bool indicates
success, not an exception", collaborator exceptions being "caught at the point
of the call and converted into the corresponding tag or sentinel value", so a
thrown database error surfaces as `false`. -/
def getRequestExists (raw : Except Unit Bool) : Bool :=
  match raw with
  | .ok b => b
  | .error _ => false

/-- Modelled from the spec: the wrapper `storeRequest` in
`src/database/wrappers/request.ts` is not under `src/`; per the spec
`store(request) -> bool` "indicates success, not an exception", so a thrown
database error surfaces as `false`. -/
def storeRequest (raw : Except Unit Bool) : Bool :=
  match raw with
  | .ok b => b
  | .error _ => false

/-- Modelled from the spec: the wrapper `incrementQueryCount` in
`src/database/wrappers/account.ts` is not under `src/`; per the spec
`increment(identity) -> bool` indicates success, not an exception, so a thrown
database error surfaces as `false`. -/
def incrementQueryCount (raw : Except Unit Bool) : Bool :=
  match raw with
  | .ok b => b
  | .error _ => false

/-- Embedding of `isValidGetSignatureInput` (lines 193-201): conjunction of
the five external validation predicates on the request body. -/
def isValidGetSignatureInput (e : Env) : Bool :=
  e.hasValidAccountParam && e.hasValidQueryPhoneNumberParam &&
    e.phoneNumberHashIsValidIfExists && e.isBodyReasonablySized &&
    e.hasValidTimestamp

/-- The `SignMessageResponse` JSON body sent on the HTTP 200 path.  `error` is
`none` when the field is absent. -/
structure SignMessageResponse where
  success : Bool
  signature : String
  version : String
  performedQueryCount : Int
  totalQuota : Int
  blockNumber : Int
  error : Option String
deriving DecidableEq, Repr

/-- Which HTTP response the handler produces: 400 invalid input, 401
unauthenticated, 403 exceeded quota (with the count/quota/block payload passed
to `respondWithError`), 500 unknown error from the top-level catch, or 200
with a `SignMessageResponse`. -/
inductive HandlerOutcome where
  | badRequest
  | unauthenticated
  | quotaExceeded (performedQueryCount totalQuota blockNumber : Int)
  | internalError
  | ok (resp : SignMessageResponse)
deriving DecidableEq, Repr

/-- Trace of the handler's interactions: which collaborators were invoked on
this call, and the `errorMsgs` array it accumulated. -/
structure Effects where
  quotaLookupIssued : Bool
  blockNumberIssued : Bool
  signatureComputed : Bool
  requestExistsChecked : Bool
  storeRequestAttempted : Bool
  incrementQueryCountAttempted : Bool
  errorMsgs : List String
deriving DecidableEq, Repr

/-- Trace of a call that touched no collaborator past authentication. -/
def noEffects : Effects :=
  ⟨false, false, false, false, false, false, []⟩

/-- Lines 162-177: response assembly.  `success` is `!errorMsgs.length`; the
`error` field is set, to the tags joined by `', '`, exactly when `errorMsgs`
is non-empty. -/
def assembleSignMessageResponse (signature version : String)
    (performedQueryCount totalQuota blockNumber : Int)
    (errorMsgs : List String) : SignMessageResponse :=
  { success := errorMsgs.isEmpty
    signature := signature
    version := version
    performedQueryCount := performedQueryCount
    totalQuota := totalQuota
    blockNumber := blockNumber
    error :=
      if errorMsgs.isEmpty then none
      else some (String.intercalate ", " errorMsgs) }

/-- Line 116's gate condition: the quota lookup settled fulfilled and
`performedQueryCount >= totalQuota`. -/
def quotaGateTriggered (e : Env) : Bool :=
  match e.getRemainingQueryCount with
  | .ok q => decide (q.performedQueryCount ≥ q.totalQuota)
  | .error _ => false

/-- Embedding of `handleGetBlindedMessagePartialSig` (lines 37-191).
Control flow, in source order: input validation (400), authentication (401;
a rejected authentication promise reaches the top-level catch, 500), the
`Promise.allSettled` pair of quota lookup and chain-height read with sentinel
`-1` defaults and a shared `hadBlockchainError` flag, the quota-exceeded gate
(403), the signature engine (a throw reaches the top-level catch, 500; the
key-provider calls feeding it are folded into the same `Except`), the
duplicate check, and on the non-duplicate path the store write followed by the
increment write with its local `performedQueryCount++`. -/
def handleGetBlindedMessagePartialSig (e : Env) : HandlerOutcome × Effects :=
  if !isValidGetSignatureInput e then
    (.badRequest, noEffects)
  else
    match e.authenticateUser with
    | .error _ => (.internalError, noEffects)
    | .ok false => (.unauthenticated, noEffects)
    | .ok true =>
      let quotaSettled := e.getRemainingQueryCount
      let blockSettled := e.getBlockNumber
      let performedQueryCount : Int :=
        match quotaSettled with
        | .ok q => q.performedQueryCount
        | .error _ => -1
      let totalQuota : Int :=
        match quotaSettled with
        | .ok q => q.totalQuota
        | .error _ => -1
      let blockNumber : Int :=
        match blockSettled with
        | .ok n => n
        | .error _ => -1
      let quotaFulfilled : Bool :=
        match quotaSettled with
        | .ok _ => true
        | .error _ => false
      let blockFulfilled : Bool :=
        match blockSettled with
        | .ok _ => true
        | .error _ => false
      let hadBlockchainError : Bool := !quotaFulfilled || !blockFulfilled
      let errorMsgs : List String :=
        if hadBlockchainError then [ErrorMessage.CONTRACT_GET_FAILURE] else []
      if quotaFulfilled = true ∧ performedQueryCount ≥ totalQuota then
        (.quotaExceeded performedQueryCount totalQuota blockNumber,
          ⟨true, true, false, false, false, false, errorMsgs⟩)
      else
        match e.computeBlindedSignature with
        | .error _ =>
          (.internalError, ⟨true, true, false, false, false, false, errorMsgs⟩)
        | .ok signature =>
          if getRequestExists e.getRequestExistsRaw then
            let errorMsgs :=
              errorMsgs ++ [WarningMessage.DUPLICATE_REQUEST_TO_GET_PARTIAL_SIG]
            (.ok (assembleSignMessageResponse signature e.version
                performedQueryCount totalQuota blockNumber errorMsgs),
              ⟨true, true, true, true, false, false, errorMsgs⟩)
          else
            let errorMsgs :=
              if storeRequest e.storeRequestRaw then errorMsgs
              else errorMsgs ++ [ErrorMessage.FAILURE_TO_STORE_REQUEST]
            let performedQueryCount :=
              if incrementQueryCount e.incrementQueryCountRaw then
                performedQueryCount + 1
              else performedQueryCount
            let errorMsgs :=
              if incrementQueryCount e.incrementQueryCountRaw then errorMsgs
              else errorMsgs ++ [ErrorMessage.FAILURE_TO_INCREMENT_QUERY_COUNT]
            (.ok (assembleSignMessageResponse signature e.version
                performedQueryCount totalQuota blockNumber errorMsgs),
              ⟨true, true, true, true, true, true, errorMsgs⟩)

/-- Lines 93-103: the `performedQueryCount` local as settled by the quota
lookup, before any increment (`-1` sentinel on rejection). -/
def settledPerformedQueryCount (e : Env) : Int :=
  match e.getRemainingQueryCount with
  | .ok q => q.performedQueryCount
  | .error _ => -1

/-- Lines 93-103: the `totalQuota` local as settled by the quota lookup
(`-1` sentinel on rejection). -/
def settledTotalQuota (e : Env) : Int :=
  match e.getRemainingQueryCount with
  | .ok q => q.totalQuota
  | .error _ => -1

/-- Lines 95, 104-109: the `blockNumber` local as settled by the chain-height
read (`-1` sentinel on rejection). -/
def settledBlockNumber (e : Env) : Int :=
  match e.getBlockNumber with
  | .ok n => n
  | .error _ => -1

/-- A fully nominal environment: valid input, authentication succeeds, quota
2 of 10, block height 500, signature computes, no duplicate, both writes
succeed.  Matches the spec's concrete happy-path scenario. -/
def envOk : Env :=
  { hasValidAccountParam := true
    hasValidQueryPhoneNumberParam := true
    phoneNumberHashIsValidIfExists := true
    isBodyReasonablySized := true
    hasValidTimestamp := true
    authenticateUser := .ok true
    getRemainingQueryCount := .ok ⟨2, 10⟩
    getBlockNumber := .ok 500
    computeBlindedSignature := .ok "sig"
    getRequestExistsRaw := .ok false
    storeRequestRaw := .ok true
    incrementQueryCountRaw := .ok true
    version := "1.0.0" }

example :
    handleGetBlindedMessagePartialSig envOk =
      (.ok ⟨true, "sig", "1.0.0", 3, 10, 500, none⟩,
       ⟨true, true, true, true, true, true, []⟩) := by
  decide

example :
    handleGetBlindedMessagePartialSig
        { envOk with getRemainingQueryCount := .ok ⟨10, 10⟩ } =
      (.quotaExceeded 10 10 500,
       ⟨true, true, false, false, false, false, []⟩) := by
  decide

/-- Claim C1: for every request that passes validation and authentication and
whose quota lookup succeeds, if `performedQueryCount >= totalQuota` (equality
included) the handler responds 403 carrying the current `performedQueryCount`,
`totalQuota` and `blockNumber`, computes no signature, and performs neither
the store-request write nor the counter increment. -/
theorem quotaGate_rejects_at_or_above_quota (e : Env) (q : QuotaStatus)
    (hval : isValidGetSignatureInput e = true)
    (hauth : e.authenticateUser = Except.ok true)
    (hq : e.getRemainingQueryCount = Except.ok q)
    (hex : q.performedQueryCount ≥ q.totalQuota) :
    (handleGetBlindedMessagePartialSig e).1 =
      HandlerOutcome.quotaExceeded q.performedQueryCount q.totalQuota
        (settledBlockNumber e) ∧
    (handleGetBlindedMessagePartialSig e).2.signatureComputed = false ∧
    (handleGetBlindedMessagePartialSig e).2.storeRequestAttempted = false ∧
    (handleGetBlindedMessagePartialSig e).2.incrementQueryCountAttempted
      = false := by
  unfold handleGetBlindedMessagePartialSig settledBlockNumber
  rw [hval, hauth, hq]
  rcases hbn : e.getBlockNumber with u | n <;> simp [hex]

/-- Environment at exactly-exhausted quota (10 of 10), otherwise nominal. -/
def envAtQuota : Env := { envOk with getRemainingQueryCount := .ok ⟨10, 10⟩ }

/-- Witness for C1 at the concrete environment `envAtQuota`. -/
theorem quotaGate_rejects_at_or_above_quota_witness :
    (isValidGetSignatureInput envAtQuota = true ∧
      envAtQuota.authenticateUser = Except.ok true ∧
      envAtQuota.getRemainingQueryCount = Except.ok ⟨10, 10⟩ ∧
      (10 : Int) ≥ (10 : Int)) ∧
    ((handleGetBlindedMessagePartialSig envAtQuota).1 =
      HandlerOutcome.quotaExceeded 10 10 (settledBlockNumber envAtQuota) ∧
    (handleGetBlindedMessagePartialSig envAtQuota).2.signatureComputed
      = false ∧
    (handleGetBlindedMessagePartialSig envAtQuota).2.storeRequestAttempted
      = false ∧
    (handleGetBlindedMessagePartialSig
        envAtQuota).2.incrementQueryCountAttempted = false) :=
  ⟨⟨by decide, by decide, by decide, by decide⟩,
    quotaGate_rejects_at_or_above_quota envAtQuota ⟨10, 10⟩ (by decide)
      (by decide) (by decide) (by decide)⟩

/-- Environment whose quota lookup rejects and whose request is a duplicate;
everything else nominal. -/
def envQuotaFailDuplicate : Env :=
  { envOk with
    getRemainingQueryCount := .error ()
    getRequestExistsRaw := .ok true }

/-- Counterexample to claim C2 as stated: an authenticated, valid request
whose quota lookup fails but which is also a duplicate collects both the
contract-read-failure tag and the duplicate tag, so the 200 response's error
list is not exactly the contract-read-failure tag. -/
theorem quotaFail_errorList_not_exactly_contract_tag :
    isValidGetSignatureInput envQuotaFailDuplicate = true ∧
    envQuotaFailDuplicate.authenticateUser = Except.ok true ∧
    envQuotaFailDuplicate.getRemainingQueryCount = Except.error () ∧
    (∃ r, (handleGetBlindedMessagePartialSig envQuotaFailDuplicate).1 =
      HandlerOutcome.ok r) ∧
    (handleGetBlindedMessagePartialSig envQuotaFailDuplicate).2.errorMsgs ≠
      [ErrorMessage.CONTRACT_GET_FAILURE] := by
  refine ⟨by decide, by decide, by decide,
    ⟨⟨false, "sig", "1.0.0", -1, -1, 500,
      some (String.intercalate ", "
        [ErrorMessage.CONTRACT_GET_FAILURE,
         WarningMessage.DUPLICATE_REQUEST_TO_GET_PARTIAL_SIG])⟩, by decide⟩,
    by decide⟩

/-- Claim C2, amended: for every authenticated, valid request whose quota
lookup fails, `performedQueryCount` and `totalQuota` settle to the sentinel
`-1`, the quota-exceeded gate never rejects, the signature is still computed,
and the 200 response's error list starts with the contract-read-failure tag —
and is exactly that tag when the request is not a duplicate and both
persistence writes succeed. -/
theorem quotaFail_sentinels_gate_skipped_contract_tag (e : Env)
    (hval : isValidGetSignatureInput e = true)
    (hauth : e.authenticateUser = Except.ok true)
    (hq : e.getRemainingQueryCount = Except.error ()) :
    (∀ p t b, (handleGetBlindedMessagePartialSig e).1 ≠
      HandlerOutcome.quotaExceeded p t b) ∧
    settledPerformedQueryCount e = -1 ∧
    settledTotalQuota e = -1 ∧
    (∀ s, e.computeBlindedSignature = Except.ok s →
      (handleGetBlindedMessagePartialSig e).2.signatureComputed = true ∧
      (∃ r, (handleGetBlindedMessagePartialSig e).1 = HandlerOutcome.ok r) ∧
      (handleGetBlindedMessagePartialSig e).2.errorMsgs.head? =
        some ErrorMessage.CONTRACT_GET_FAILURE ∧
      (getRequestExists e.getRequestExistsRaw = false →
        storeRequest e.storeRequestRaw = true →
        incrementQueryCount e.incrementQueryCountRaw = true →
        (handleGetBlindedMessagePartialSig e).2.errorMsgs =
          [ErrorMessage.CONTRACT_GET_FAILURE])) := by
  unfold handleGetBlindedMessagePartialSig settledPerformedQueryCount
    settledTotalQuota
  rw [hval, hauth, hq]
  rcases hbn : e.getBlockNumber with u | n <;>
    rcases hsig : e.computeBlindedSignature with v | s <;>
    rcases hdup : getRequestExists e.getRequestExistsRaw with _ | _ <;>
    rcases hst : storeRequest e.storeRequestRaw with _ | _ <;>
    rcases hinc : incrementQueryCount e.incrementQueryCountRaw with _ | _ <;>
    simp

/-- Environment whose quota lookup rejects, everything else nominal. -/
def envQuotaFail : Env := { envOk with getRemainingQueryCount := .error () }

/-- Witness for amended C2 at the concrete environment `envQuotaFail`. -/
theorem quotaFail_sentinels_gate_skipped_contract_tag_witness :
    (isValidGetSignatureInput envQuotaFail = true ∧
      envQuotaFail.authenticateUser = Except.ok true ∧
      envQuotaFail.getRemainingQueryCount = Except.error ()) ∧
    ((∀ p t b, (handleGetBlindedMessagePartialSig envQuotaFail).1 ≠
      HandlerOutcome.quotaExceeded p t b) ∧
    settledPerformedQueryCount envQuotaFail = -1 ∧
    settledTotalQuota envQuotaFail = -1 ∧
    (∀ s, envQuotaFail.computeBlindedSignature = Except.ok s →
      (handleGetBlindedMessagePartialSig envQuotaFail).2.signatureComputed
        = true ∧
      (∃ r, (handleGetBlindedMessagePartialSig envQuotaFail).1 =
        HandlerOutcome.ok r) ∧
      (handleGetBlindedMessagePartialSig envQuotaFail).2.errorMsgs.head? =
        some ErrorMessage.CONTRACT_GET_FAILURE ∧
      (getRequestExists envQuotaFail.getRequestExistsRaw = false →
        storeRequest envQuotaFail.storeRequestRaw = true →
        incrementQueryCount envQuotaFail.incrementQueryCountRaw = true →
        (handleGetBlindedMessagePartialSig envQuotaFail).2.errorMsgs =
          [ErrorMessage.CONTRACT_GET_FAILURE]))) :=
  ⟨⟨by decide, by decide, by decide⟩,
    quotaFail_sentinels_gate_skipped_contract_tag envQuotaFail (by decide)
      (by decide) (by decide)⟩

/-- Claim C3: for every request whose fingerprint already exists in the
request store, the handler writes no new request record, does not increment
the query counter, leaves the locally held `performedQueryCount` unchanged,
appends the duplicate-request tag to the error list, and still returns the
computed signature in the 200 response. -/
theorem duplicate_request_no_writes_signature_returned (e : Env) (s : String)
    (hval : isValidGetSignatureInput e = true)
    (hauth : e.authenticateUser = Except.ok true)
    (hgate : quotaGateTriggered e = false)
    (hsig : e.computeBlindedSignature = Except.ok s)
    (hdup : getRequestExists e.getRequestExistsRaw = true) :
    (handleGetBlindedMessagePartialSig e).2.storeRequestAttempted = false ∧
    (handleGetBlindedMessagePartialSig e).2.incrementQueryCountAttempted
      = false ∧
    WarningMessage.DUPLICATE_REQUEST_TO_GET_PARTIAL_SIG ∈
      (handleGetBlindedMessagePartialSig e).2.errorMsgs ∧
    (∃ r, (handleGetBlindedMessagePartialSig e).1 = HandlerOutcome.ok r ∧
      r.signature = s ∧
      r.performedQueryCount = settledPerformedQueryCount e) := by
  unfold handleGetBlindedMessagePartialSig settledPerformedQueryCount
  rw [hval, hauth]
  unfold quotaGateTriggered at hgate
  rcases hq : e.getRemainingQueryCount with u | q <;> rw [hq] at hgate <;>
    simp at hgate <;>
    rcases hbn : e.getBlockNumber with u' | n <;>
    simp [hsig, hdup, hgate, assembleSignMessageResponse]
  all_goals rw [if_neg (by omega)]
  all_goals simp

/-- Environment whose fingerprint already exists in the request store,
everything else nominal. -/
def envDuplicate : Env := { envOk with getRequestExistsRaw := .ok true }

/-- Witness for C3 at the concrete environment `envDuplicate`. -/
theorem duplicate_request_no_writes_signature_returned_witness :
    (isValidGetSignatureInput envDuplicate = true ∧
      envDuplicate.authenticateUser = Except.ok true ∧
      quotaGateTriggered envDuplicate = false ∧
      envDuplicate.computeBlindedSignature = Except.ok "sig" ∧
      getRequestExists envDuplicate.getRequestExistsRaw = true) ∧
    ((handleGetBlindedMessagePartialSig envDuplicate).2.storeRequestAttempted
      = false ∧
    (handleGetBlindedMessagePartialSig
        envDuplicate).2.incrementQueryCountAttempted = false ∧
    WarningMessage.DUPLICATE_REQUEST_TO_GET_PARTIAL_SIG ∈
      (handleGetBlindedMessagePartialSig envDuplicate).2.errorMsgs ∧
    (∃ r, (handleGetBlindedMessagePartialSig envDuplicate).1 =
        HandlerOutcome.ok r ∧
      r.signature = "sig" ∧
      r.performedQueryCount = settledPerformedQueryCount envDuplicate)) :=
  ⟨⟨by decide, by decide, by decide, by decide, by decide⟩,
    duplicate_request_no_writes_signature_returned envDuplicate "sig"
      (by decide) (by decide) (by decide) (by decide) (by decide)⟩

/-- Line 97: whether the quota lookup settled fulfilled. -/
def quotaLookupFulfilled (e : Env) : Bool :=
  match e.getRemainingQueryCount with
  | .ok _ => true
  | .error _ => false

/-- Line 104: whether the chain-height read settled fulfilled. -/
def blockNumberFulfilled (e : Env) : Bool :=
  match e.getBlockNumber with
  | .ok _ => true
  | .error _ => false

/-- The `errorMsgs` array as accumulated on any run that reaches the
response assembler: the contract-read tag (pushed once iff either blockchain
read failed), then either the duplicate tag, or the store-failure tag
followed by the increment-failure tag. -/
def collectedErrorMsgs (e : Env) : List String :=
  (if quotaLookupFulfilled e && blockNumberFulfilled e then []
   else [ErrorMessage.CONTRACT_GET_FAILURE]) ++
  (if getRequestExists e.getRequestExistsRaw then
    [WarningMessage.DUPLICATE_REQUEST_TO_GET_PARTIAL_SIG]
   else
    (if storeRequest e.storeRequestRaw then []
     else [ErrorMessage.FAILURE_TO_STORE_REQUEST]) ++
    (if incrementQueryCount e.incrementQueryCountRaw then []
     else [ErrorMessage.FAILURE_TO_INCREMENT_QUERY_COUNT]))

/-- The `performedQueryCount` the 200 response reports: the settled value,
incremented by one exactly when the non-duplicate path's increment write
succeeded (line 157). -/
def finalPerformedQueryCount (e : Env) : Int :=
  settledPerformedQueryCount e +
    (if getRequestExists e.getRequestExistsRaw = false ∧
        incrementQueryCount e.incrementQueryCountRaw = true then 1 else 0)

/-- Evaluation of the handler on the 200 path: once validation,
authentication, the quota gate and the signature engine let the call through,
the handler's outcome and trace are determined componentwise. -/
theorem handle_ok_eq (e : Env) (s : String)
    (hval : isValidGetSignatureInput e = true)
    (hauth : e.authenticateUser = Except.ok true)
    (hgate : quotaGateTriggered e = false)
    (hsig : e.computeBlindedSignature = Except.ok s) :
    handleGetBlindedMessagePartialSig e =
      (HandlerOutcome.ok (assembleSignMessageResponse s e.version
          (finalPerformedQueryCount e) (settledTotalQuota e)
          (settledBlockNumber e) (collectedErrorMsgs e)),
        ⟨true, true, true, true,
          !(getRequestExists e.getRequestExistsRaw),
          !(getRequestExists e.getRequestExistsRaw),
          collectedErrorMsgs e⟩) := by
  unfold handleGetBlindedMessagePartialSig finalPerformedQueryCount
    settledPerformedQueryCount settledTotalQuota settledBlockNumber
    collectedErrorMsgs quotaLookupFulfilled blockNumberFulfilled
  unfold quotaGateTriggered at hgate
  rw [hval, hauth, hsig]
  rcases hq : e.getRemainingQueryCount with u | q
  case error =>
    rcases hbn : e.getBlockNumber with u' | n <;>
      rcases hdup : getRequestExists e.getRequestExistsRaw with _ | _ <;>
      rcases hst : storeRequest e.storeRequestRaw with _ | _ <;>
      rcases hinc : incrementQueryCount e.incrementQueryCountRaw with _ | _ <;>
      simp
  case ok =>
    rw [hq] at hgate
    simp at hgate
    rcases hbn : e.getBlockNumber with u' | n <;>
      rcases hdup : getRequestExists e.getRequestExistsRaw with _ | _ <;>
      rcases hst : storeRequest e.storeRequestRaw with _ | _ <;>
      rcases hinc : incrementQueryCount e.incrementQueryCountRaw with _ | _ <;>
      simp [hgate]

/-- Inversion of the 200 path: a 200 response can only be produced when
validation, authentication, the quota gate and the signature engine all let
the call through. -/
theorem handle_ok_inv (e : Env) (r : SignMessageResponse)
    (h : (handleGetBlindedMessagePartialSig e).1 = HandlerOutcome.ok r) :
    isValidGetSignatureInput e = true ∧
    e.authenticateUser = Except.ok true ∧
    quotaGateTriggered e = false ∧
    ∃ s, e.computeBlindedSignature = Except.ok s := by
  unfold handleGetBlindedMessagePartialSig at h
  unfold quotaGateTriggered
  rcases hval : isValidGetSignatureInput e with _ | _ <;> rw [hval] at h
  · simp at h
  rcases ha : e.authenticateUser with u | b <;> rw [ha] at h
  · simp at h
  rcases b
  · simp at h
  rcases hq : e.getRemainingQueryCount with u | q <;> rw [hq] at h <;>
    rcases hbn : e.getBlockNumber with u' | n <;> rw [hbn] at h <;>
    rcases hs : e.computeBlindedSignature with u'' | s <;> rw [hs] at h <;>
    simp_all
  all_goals split at h <;> simp_all

/-- Counterexample to claim C4 as stated: after a failed quota lookup, when
the request is not a duplicate and the increment write succeeds, the handler
runs `performedQueryCount++` on the `-1` sentinel (line 157) and the 200
response reports `performedQueryCount = 0`, not `-1`. -/
theorem quotaFail_response_pqc_not_sentinel :
    envQuotaFail.getRemainingQueryCount = Except.error () ∧
    (∃ r, (handleGetBlindedMessagePartialSig envQuotaFail).1 =
        HandlerOutcome.ok r ∧ r.performedQueryCount = 0 ∧
      ¬ r.performedQueryCount = -1) := by
  refine ⟨by decide, ⟨⟨false, "sig", "1.0.0", 0, -1, 500,
    some ErrorMessage.CONTRACT_GET_FAILURE⟩, by decide, by decide, by decide⟩⟩

/-- Claim C4, amended: the 200 response always carries whatever
`performedQueryCount`, `totalQuota` and `blockNumber` values were last
computed — the settled values, sentinel `-1` included for each field whose
upstream read failed, with `performedQueryCount` further incremented by one
when the non-duplicate increment write succeeded.  In particular, after a
failed quota lookup the response reports `performedQueryCount = -1` on the
duplicate and failed-increment paths, and `0` when the increment succeeded. -/
theorem response_carries_last_computed_values (e : Env)
    (r : SignMessageResponse)
    (h : (handleGetBlindedMessagePartialSig e).1 = HandlerOutcome.ok r) :
    r.totalQuota = settledTotalQuota e ∧
    r.blockNumber = settledBlockNumber e ∧
    r.performedQueryCount = finalPerformedQueryCount e ∧
    (e.getRemainingQueryCount = Except.error () →
      r.totalQuota = -1 ∧
      r.performedQueryCount =
        (if getRequestExists e.getRequestExistsRaw = false ∧
            incrementQueryCount e.incrementQueryCountRaw = true
         then 0 else -1)) := by
  obtain ⟨hval, hauth, hgate, s, hs⟩ := handle_ok_inv e r h
  have heq := handle_ok_eq e s hval hauth hgate hs
  rw [heq] at h
  simp only [] at h
  have hr : r = assembleSignMessageResponse s e.version
      (finalPerformedQueryCount e) (settledTotalQuota e)
      (settledBlockNumber e) (collectedErrorMsgs e) := by
    exact (HandlerOutcome.ok.inj h).symm
  subst hr
  refine ⟨by simp [assembleSignMessageResponse], by
    simp [assembleSignMessageResponse], by
    simp [assembleSignMessageResponse], ?_⟩
  intro hq
  refine ⟨by simp [assembleSignMessageResponse, settledTotalQuota, hq], ?_⟩
  simp only [assembleSignMessageResponse, finalPerformedQueryCount,
    settledPerformedQueryCount, hq]
  rcases hdup : getRequestExists e.getRequestExistsRaw with _ | _ <;>
    rcases hinc : incrementQueryCount e.incrementQueryCountRaw with _ | _ <;>
    simp

/-- Witness for amended C4 at the nominal environment `envOk`. -/
theorem response_carries_last_computed_values_witness :
    ((handleGetBlindedMessagePartialSig envOk).1 =
      HandlerOutcome.ok ⟨true, "sig", "1.0.0", 3, 10, 500, none⟩) ∧
    ((⟨true, "sig", "1.0.0", 3, 10, 500, none⟩ :
        SignMessageResponse).totalQuota = settledTotalQuota envOk ∧
    (⟨true, "sig", "1.0.0", 3, 10, 500, none⟩ :
        SignMessageResponse).blockNumber = settledBlockNumber envOk ∧
    (⟨true, "sig", "1.0.0", 3, 10, 500, none⟩ :
        SignMessageResponse).performedQueryCount =
      finalPerformedQueryCount envOk ∧
    (envOk.getRemainingQueryCount = Except.error () →
      (⟨true, "sig", "1.0.0", 3, 10, 500, none⟩ :
          SignMessageResponse).totalQuota = -1 ∧
      (⟨true, "sig", "1.0.0", 3, 10, 500, none⟩ :
          SignMessageResponse).performedQueryCount =
        (if getRequestExists envOk.getRequestExistsRaw = false ∧
            incrementQueryCount envOk.incrementQueryCountRaw = true
         then 0 else -1))) :=
  ⟨by decide,
    response_carries_last_computed_values envOk
      ⟨true, "sig", "1.0.0", 3, 10, 500, none⟩ (by decide)⟩

/-- Claim C5: in every 200 response, `success` is true iff no diagnostic tags
were collected; the `error` field is present iff `success` is false; and when
present, `error` is the collected tags joined by the fixed separator `", "`,
preserving collection order: contract-read failure, then duplicate-request,
then store failure, then increment failure. -/
theorem response_success_error_invariant (e : Env) (r : SignMessageResponse)
    (h : (handleGetBlindedMessagePartialSig e).1 = HandlerOutcome.ok r) :
    (r.success = true ↔
      (handleGetBlindedMessagePartialSig e).2.errorMsgs = []) ∧
    (r.error = none ↔ r.success = true) ∧
    (r.success = false →
      r.error = some (String.intercalate ", "
        (handleGetBlindedMessagePartialSig e).2.errorMsgs)) ∧
    (handleGetBlindedMessagePartialSig e).2.errorMsgs.Sublist
      [ErrorMessage.CONTRACT_GET_FAILURE,
       WarningMessage.DUPLICATE_REQUEST_TO_GET_PARTIAL_SIG,
       ErrorMessage.FAILURE_TO_STORE_REQUEST,
       ErrorMessage.FAILURE_TO_INCREMENT_QUERY_COUNT] := by
  obtain ⟨hval, hauth, hgate, s, hs⟩ := handle_ok_inv e r h
  have heq := handle_ok_eq e s hval hauth hgate hs
  rw [heq] at h
  simp only [] at h
  have hr : r = assembleSignMessageResponse s e.version
      (finalPerformedQueryCount e) (settledTotalQuota e)
      (settledBlockNumber e) (collectedErrorMsgs e) := by
    exact (HandlerOutcome.ok.inj h).symm
  subst hr
  rw [heq]
  simp only [assembleSignMessageResponse]
  refine ⟨by simp [List.isEmpty_iff], ?_, ?_, ?_⟩
  · rcases hmt : collectedErrorMsgs e with _ | ⟨a, l⟩ <;> simp
  · rcases hmt : collectedErrorMsgs e with _ | ⟨a, l⟩ <;> simp
  · unfold collectedErrorMsgs
    rcases quotaLookupFulfilled e <;> rcases blockNumberFulfilled e <;>
      rcases getRequestExists e.getRequestExistsRaw <;>
      rcases storeRequest e.storeRequestRaw <;>
      rcases incrementQueryCount e.incrementQueryCountRaw <;>
      decide

/-- The 200 response the handler produces on `envDuplicate`. -/
def respDup : SignMessageResponse :=
  ⟨false, "sig", "1.0.0", 2, 10, 500,
    some WarningMessage.DUPLICATE_REQUEST_TO_GET_PARTIAL_SIG⟩

/-- Witness for C5 at the concrete environment `envDuplicate`. -/
theorem response_success_error_invariant_witness :
    ((handleGetBlindedMessagePartialSig envDuplicate).1 =
      HandlerOutcome.ok respDup) ∧
    ((respDup.success = true ↔
      (handleGetBlindedMessagePartialSig envDuplicate).2.errorMsgs = []) ∧
    (respDup.error = none ↔ respDup.success = true) ∧
    (respDup.success = false →
      respDup.error = some (String.intercalate ", "
        (handleGetBlindedMessagePartialSig envDuplicate).2.errorMsgs)) ∧
    (handleGetBlindedMessagePartialSig envDuplicate).2.errorMsgs.Sublist
      [ErrorMessage.CONTRACT_GET_FAILURE,
       WarningMessage.DUPLICATE_REQUEST_TO_GET_PARTIAL_SIG,
       ErrorMessage.FAILURE_TO_STORE_REQUEST,
       ErrorMessage.FAILURE_TO_INCREMENT_QUERY_COUNT]) :=
  ⟨by decide,
    response_success_error_invariant envDuplicate respDup (by decide)⟩

/-- Claim C6: on the non-duplicate path, the store-request write and the
increment-counter write are each attempted regardless of the other's outcome;
a `false` result of either appends only its own distinct diagnostic tag
without aborting the other write or the response; and the
`performedQueryCount` returned to the caller is incremented by one exactly
when the increment write returns `true`. -/
theorem nonduplicate_independent_writes (e : Env) (s : String)
    (hval : isValidGetSignatureInput e = true)
    (hauth : e.authenticateUser = Except.ok true)
    (hgate : quotaGateTriggered e = false)
    (hsig : e.computeBlindedSignature = Except.ok s)
    (hdup : getRequestExists e.getRequestExistsRaw = false) :
    (handleGetBlindedMessagePartialSig e).2.storeRequestAttempted = true ∧
    (handleGetBlindedMessagePartialSig e).2.incrementQueryCountAttempted
      = true ∧
    (ErrorMessage.FAILURE_TO_STORE_REQUEST ∈
        (handleGetBlindedMessagePartialSig e).2.errorMsgs ↔
      storeRequest e.storeRequestRaw = false) ∧
    (ErrorMessage.FAILURE_TO_INCREMENT_QUERY_COUNT ∈
        (handleGetBlindedMessagePartialSig e).2.errorMsgs ↔
      incrementQueryCount e.incrementQueryCountRaw = false) ∧
    (∃ r, (handleGetBlindedMessagePartialSig e).1 = HandlerOutcome.ok r ∧
      r.performedQueryCount = settledPerformedQueryCount e +
        (if incrementQueryCount e.incrementQueryCountRaw then 1 else 0)) := by
  have heq := handle_ok_eq e s hval hauth hgate hsig
  rw [heq]
  refine ⟨by simp [hdup], by simp [hdup], ?_, ?_, ?_⟩ <;>
    simp only [assembleSignMessageResponse, finalPerformedQueryCount,
      collectedErrorMsgs, hdup] <;>
    rcases quotaLookupFulfilled e <;> rcases blockNumberFulfilled e <;>
    rcases hst : storeRequest e.storeRequestRaw <;>
    rcases hinc : incrementQueryCount e.incrementQueryCountRaw <;>
    simp [ErrorMessage.FAILURE_TO_STORE_REQUEST,
      ErrorMessage.FAILURE_TO_INCREMENT_QUERY_COUNT,
      ErrorMessage.CONTRACT_GET_FAILURE]

/-- Environment where the store-request write fails, everything else
nominal. -/
def envStoreFail : Env := { envOk with storeRequestRaw := .ok false }

/-- Witness for C6 at the concrete environment `envStoreFail`. -/
theorem nonduplicate_independent_writes_witness :
    (isValidGetSignatureInput envStoreFail = true ∧
      envStoreFail.authenticateUser = Except.ok true ∧
      quotaGateTriggered envStoreFail = false ∧
      envStoreFail.computeBlindedSignature = Except.ok "sig" ∧
      getRequestExists envStoreFail.getRequestExistsRaw = false) ∧
    ((handleGetBlindedMessagePartialSig envStoreFail).2.storeRequestAttempted
      = true ∧
    (handleGetBlindedMessagePartialSig
        envStoreFail).2.incrementQueryCountAttempted = true ∧
    (ErrorMessage.FAILURE_TO_STORE_REQUEST ∈
        (handleGetBlindedMessagePartialSig envStoreFail).2.errorMsgs ↔
      storeRequest envStoreFail.storeRequestRaw = false) ∧
    (ErrorMessage.FAILURE_TO_INCREMENT_QUERY_COUNT ∈
        (handleGetBlindedMessagePartialSig envStoreFail).2.errorMsgs ↔
      incrementQueryCount envStoreFail.incrementQueryCountRaw = false) ∧
    (∃ r, (handleGetBlindedMessagePartialSig envStoreFail).1 =
        HandlerOutcome.ok r ∧
      r.performedQueryCount = settledPerformedQueryCount envStoreFail +
        (if incrementQueryCount envStoreFail.incrementQueryCountRaw
         then 1 else 0))) :=
  ⟨⟨by decide, by decide, by decide, by decide, by decide⟩,
    nonduplicate_independent_writes envStoreFail "sig" (by decide)
      (by decide) (by decide) (by decide) (by decide)⟩

/-- Claim C7: exceptions thrown by the quota lookup, the chain-height read,
the duplicate-existence check, the store-request write or the increment write
are caught at the point of the call and converted into the corresponding tag
or sentinel value, never propagating past their own step; only the signature
engine's failure propagates to the top-level handler and becomes an HTTP 500.
Formally: past validation and authentication, the outcome is a 500 exactly
when the quota gate lets the call through and the signature engine throws —
whatever the other five collaborators' raw outcomes — and whenever the
signature engine succeeds the call completes with a 200 (or the 403 gate). -/
theorem collaborator_exceptions_contained (e : Env)
    (hval : isValidGetSignatureInput e = true)
    (hauth : e.authenticateUser = Except.ok true) :
    ((handleGetBlindedMessagePartialSig e).1 = HandlerOutcome.internalError ↔
      (quotaGateTriggered e = false ∧
        e.computeBlindedSignature = Except.error ())) ∧
    (∀ s, e.computeBlindedSignature = Except.ok s →
      quotaGateTriggered e = false →
      ∃ r, (handleGetBlindedMessagePartialSig e).1 = HandlerOutcome.ok r) := by
  unfold handleGetBlindedMessagePartialSig quotaGateTriggered
  rw [hval, hauth]
  rcases hq : e.getRemainingQueryCount with u | q <;>
    rcases hbn : e.getBlockNumber with u' | n <;>
    rcases hs : e.computeBlindedSignature with u'' | s <;>
    rcases hdup : getRequestExists e.getRequestExistsRaw with _ | _ <;>
    rcases hst : storeRequest e.storeRequestRaw with _ | _ <;>
    rcases hinc : incrementQueryCount e.incrementQueryCountRaw with _ | _ <;>
    simp [hdup, hst, hinc]
  all_goals by_cases hge : q.totalQuota ≤ q.performedQueryCount <;>
    simp [hge] <;> omega

/-- Environment where the signature engine throws, everything else nominal. -/
def envSigFail : Env := { envOk with computeBlindedSignature := .error () }

/-- Witness for C7 at the concrete environment `envSigFail`. -/
theorem collaborator_exceptions_contained_witness :
    (isValidGetSignatureInput envSigFail = true ∧
      envSigFail.authenticateUser = Except.ok true) ∧
    (((handleGetBlindedMessagePartialSig envSigFail).1 =
        HandlerOutcome.internalError ↔
      (quotaGateTriggered envSigFail = false ∧
        envSigFail.computeBlindedSignature = Except.error ())) ∧
    (∀ s, envSigFail.computeBlindedSignature = Except.ok s →
      quotaGateTriggered envSigFail = false →
      ∃ r, (handleGetBlindedMessagePartialSig envSigFail).1 =
        HandlerOutcome.ok r)) :=
  ⟨⟨by decide, by decide⟩,
    collaborator_exceptions_contained envSigFail (by decide) (by decide)⟩

/-- Environment whose chain-height read rejects, everything else nominal. -/
def envBlockFail : Env := { envOk with getBlockNumber := .error () }

/-- Counterexample to claim C8 as stated: with the chain-height read failed
and the quota lookup succeeding with 2 of 10, the non-duplicate increment
succeeds and the 200 response reports `performedQueryCount = 3`, not the
looked-up value 2. -/
theorem blockFail_response_pqc_not_lookedUp :
    envBlockFail.getBlockNumber = Except.error () ∧
    envBlockFail.getRemainingQueryCount = Except.ok ⟨2, 10⟩ ∧
    (∃ r, (handleGetBlindedMessagePartialSig envBlockFail).1 =
        HandlerOutcome.ok r ∧ r.performedQueryCount = 3 ∧
      ¬ r.performedQueryCount = 2) := by
  refine ⟨by decide, by decide,
    ⟨⟨false, "sig", "1.0.0", 3, 10, -1,
      some ErrorMessage.CONTRACT_GET_FAILURE⟩,
      by decide, by decide, by decide⟩⟩

/-- Claim C8, amended: if the chain-height read fails but the quota lookup
succeeds (and the gate and signature engine let the call through), the 200
response carries the looked-up `totalQuota`, a `performedQueryCount` equal to
the looked-up value incremented by one exactly when the non-duplicate
increment write succeeded, the contract-read-failure tag in its error list,
and `blockNumber = -1`. -/
theorem blockFail_quotaOk_response (e : Env) (q : QuotaStatus) (s : String)
    (hval : isValidGetSignatureInput e = true)
    (hauth : e.authenticateUser = Except.ok true)
    (hq : e.getRemainingQueryCount = Except.ok q)
    (hbn : e.getBlockNumber = Except.error ())
    (hlt : q.performedQueryCount < q.totalQuota)
    (hsig : e.computeBlindedSignature = Except.ok s) :
    ∃ r, (handleGetBlindedMessagePartialSig e).1 = HandlerOutcome.ok r ∧
      r.totalQuota = q.totalQuota ∧
      r.blockNumber = -1 ∧
      ErrorMessage.CONTRACT_GET_FAILURE ∈
        (handleGetBlindedMessagePartialSig e).2.errorMsgs ∧
      r.performedQueryCount = q.performedQueryCount +
        (if getRequestExists e.getRequestExistsRaw = false ∧
            incrementQueryCount e.incrementQueryCountRaw = true
         then 1 else 0) := by
  have hgate : quotaGateTriggered e = false := by
    unfold quotaGateTriggered
    rw [hq]
    simp
    omega
  have heq := handle_ok_eq e s hval hauth hgate hsig
  rw [heq]
  refine ⟨_, rfl, ?_, ?_, ?_, ?_⟩ <;>
    simp [assembleSignMessageResponse, settledTotalQuota, settledBlockNumber,
      finalPerformedQueryCount, settledPerformedQueryCount,
      collectedErrorMsgs, quotaLookupFulfilled, blockNumberFulfilled, hq, hbn]

/-- Witness for amended C8 at the concrete environment `envBlockFail`. -/
theorem blockFail_quotaOk_response_witness :
    (isValidGetSignatureInput envBlockFail = true ∧
      envBlockFail.authenticateUser = Except.ok true ∧
      envBlockFail.getRemainingQueryCount = Except.ok ⟨2, 10⟩ ∧
      envBlockFail.getBlockNumber = Except.error () ∧
      (2 : Int) < (10 : Int) ∧
      envBlockFail.computeBlindedSignature = Except.ok "sig") ∧
    (∃ r, (handleGetBlindedMessagePartialSig envBlockFail).1 =
        HandlerOutcome.ok r ∧
      r.totalQuota = (10 : Int) ∧
      r.blockNumber = -1 ∧
      ErrorMessage.CONTRACT_GET_FAILURE ∈
        (handleGetBlindedMessagePartialSig envBlockFail).2.errorMsgs ∧
      r.performedQueryCount = (2 : Int) +
        (if getRequestExists envBlockFail.getRequestExistsRaw = false ∧
            incrementQueryCount envBlockFail.incrementQueryCountRaw = true
         then 1 else 0)) :=
  ⟨⟨by decide, by decide, by decide, by decide, by decide, by decide⟩,
    blockFail_quotaOk_response envBlockFail ⟨2, 10⟩ "sig" (by decide)
      (by decide) (by decide) (by decide) (by decide) (by decide)⟩

/-- Claim C9: for every valid request that fails authentication, the handler
responds 401 and performs no further processing: no quota or chain-height
read is issued, no signature is computed, and neither the request store nor
the counter is touched (the outcome is exactly `noEffects`). -/
theorem authFail_rejects_without_processing (e : Env)
    (hval : isValidGetSignatureInput e = true)
    (hauth : e.authenticateUser = Except.ok false) :
    handleGetBlindedMessagePartialSig e =
      (HandlerOutcome.unauthenticated, noEffects) := by
  unfold handleGetBlindedMessagePartialSig
  rw [hval, hauth]
  simp

/-- Environment where authentication returns `false`, everything else
nominal. -/
def envAuthFail : Env := { envOk with authenticateUser := .ok false }

/-- Witness for C9 at the concrete environment `envAuthFail`. -/
theorem authFail_rejects_without_processing_witness :
    (isValidGetSignatureInput envAuthFail = true ∧
      envAuthFail.authenticateUser = Except.ok false) ∧
    handleGetBlindedMessagePartialSig envAuthFail =
      (HandlerOutcome.unauthenticated, noEffects) :=
  ⟨⟨by decide, by decide⟩,
    authFail_rejects_without_processing envAuthFail (by decide) (by decide)⟩

/-- Claim C10: when both the quota lookup and the chain-height read fail in
the same call, the contract-read-failure tag is appended to the error list
exactly once — the two failures share the single `hadBlockchainError` flag —
not once per failed read. -/
theorem bothReadsFail_contract_tag_once (e : Env)
    (hval : isValidGetSignatureInput e = true)
    (hauth : e.authenticateUser = Except.ok true)
    (hq : e.getRemainingQueryCount = Except.error ())
    (hbn : e.getBlockNumber = Except.error ()) :
    (handleGetBlindedMessagePartialSig e).2.errorMsgs.count
      ErrorMessage.CONTRACT_GET_FAILURE = 1 := by
  unfold handleGetBlindedMessagePartialSig
  rw [hval, hauth, hq, hbn]
  rcases hs : e.computeBlindedSignature with u | s <;>
    rcases hdup : getRequestExists e.getRequestExistsRaw with _ | _ <;>
    rcases hst : storeRequest e.storeRequestRaw with _ | _ <;>
    rcases hinc : incrementQueryCount e.incrementQueryCountRaw with _ | _ <;>
    simp [hdup, hst, hinc] <;>
    decide

/-- Environment where both blockchain reads reject, everything else
nominal. -/
def envBothReadsFail : Env :=
  { envOk with
    getRemainingQueryCount := .error ()
    getBlockNumber := .error () }

/-- Witness for C10 at the concrete environment `envBothReadsFail`. -/
theorem bothReadsFail_contract_tag_once_witness :
    (isValidGetSignatureInput envBothReadsFail = true ∧
      envBothReadsFail.authenticateUser = Except.ok true ∧
      envBothReadsFail.getRemainingQueryCount = Except.error () ∧
      envBothReadsFail.getBlockNumber = Except.error ()) ∧
    (handleGetBlindedMessagePartialSig envBothReadsFail).2.errorMsgs.count
      ErrorMessage.CONTRACT_GET_FAILURE = 1 :=
  ⟨⟨by decide, by decide, by decide, by decide⟩,
    bothReadsFail_contract_tag_once envBothReadsFail (by decide) (by decide)
      (by decide) (by decide)⟩

end GetPartialSignature
